import Mathlib

/-!
# Host timer of the Linux port (src/linux/timer.c)

A shallow embedding of the wall-clock / tick-counter conversion and of the
cooperative poll and dispatch loop, followed by the properties proved about it.

Conventions of the embedding

* The three file-scope variables of timer.c are the fields of `TimerState`;
  every function that reads or writes them takes the state and, when it
  writes, returns the new one.
* `timespec_read` (clock_gettime) and `timer_dispatch_many` (the task
  multiplexer) are external.  The value each call returns is an argument of
  the function that makes the call: `now` for a clock reading, `next` for the
  tick the multiplexer reports.
* `time_t` and `long` are mathematical integers.  A `uint32_t` is a natural
  number below 2^32; every conversion to a 32-bit type is an explicit
  reduction (`to_uint32`, `to_int32`), and the cast to `unsigned long` is the
  reduction `to_ulong` modulo 2^64.  The sum in timespec_to_time is reduced
  modulo 2^32 on return, so a wraparound of the wider `long` arithmetic
  would not change its value.
* Signed overflow of the 32-bit product in timespec_from_time is undefined in
  C; the embedding wraps it, and every property that depends on the product
  assumes it fits.
* `CONFIG_CLOCK_FREQ` is a build-time constant whose header is not part of
  the sources; it is the parameter `freq` of every function that uses it.
-/

namespace LinuxTimer

/-! ## Data -/

/-- The C `struct timespec`: whole seconds and nanoseconds. -/
structure timespec where
  tv_sec : Int
  tv_nsec : Int
  deriving DecidableEq, Repr

/-- The file-scope variables of timer.c. -/
structure TimerState where
  next_wake_time_counter : Nat
  next_wake_time : timespec
  start_sec : Int
  deriving DecidableEq, Repr

/-- Modelled from the spec: the constant NSECS comes from a header that is not
among the sources; the spec fixes the nanosecond field to the range
[0, 1e9), so NSECS is one second in nanoseconds. -/
def NSECS : Int := 1000000000

/-- Modelled from the spec: the constant NSECS_PER_TICK comes from a header
that is not among the sources; the spec calls it the tick duration, the
nanoseconds per tick derived from the frequency.  It is the C integer
quotient of NSECS by CONFIG_CLOCK_FREQ. -/
def NSECS_PER_TICK (freq : Nat) : Int := Int.tdiv NSECS (freq : Int)

/-! ## Machine integer conversions -/

/-- Conversion to `uint32_t`: reduction modulo 2^32. -/
def to_uint32 (x : Int) : Nat := (x % 4294967296).toNat

/-- Conversion to `int32_t`: the two's complement representative in
[-2^31, 2^31). -/
def to_int32 (x : Int) : Int := (x + 2147483648) % 4294967296 - 2147483648

/-- Cast of a `long` to `unsigned long` (64 bits): reduction modulo 2^64. -/
def to_ulong (x : Int) : Int := x % 18446744073709551616

/-! ## Timespec helpers -/

/-- Compare two timespec values (timer.c, timespec_is_before). -/
def timespec_is_before (ts1 ts2 : timespec) : Bool :=
  decide (ts1.tv_sec < ts2.tv_sec)
    || (decide (ts1.tv_sec = ts2.tv_sec) && decide (ts1.tv_nsec < ts2.tv_nsec))

/-- Convert a timespec to a counter value (timer.c, timespec_to_time).  The
sum is formed in `long` arithmetic and converted to `uint32_t` on return; the
division is the C one, truncating toward zero (and a zero tick duration, for
a frequency above 1e9, gives quotient 0 here where C leaves it undefined). -/
def timespec_to_time (freq : Nat) (s : TimerState) (ts : timespec) : Nat :=
  to_uint32 ((ts.tv_sec - s.start_sec) * (freq : Int)
    + Int.tdiv ts.tv_nsec (NSECS_PER_TICK freq))

/-- The local `counter_diff` of timespec_from_time: the unsigned 32-bit
difference `time - next_wake_time_counter` stored in an `int32_t`. -/
def counter_diff (time counter : Nat) : Int :=
  to_int32 ((to_uint32 ((time : Int) - (counter : Int)) : Nat) : Int)

/-- Convert an internal time counter to a timespec (timer.c,
timespec_from_time).  The product `counter_diff * NSECS_PER_TICK` has both
operands of type `int`, so it is a 32-bit product; it is then added to the
`long` nanosecond field.  At most one second is carried or borrowed. -/
def timespec_from_time (freq : Nat) (s : TimerState) (time : Nat) : timespec :=
  let cd : Int := counter_diff time s.next_wake_time_counter
  let tv_sec : Int := s.next_wake_time.tv_sec
  let tv_nsec : Int := s.next_wake_time.tv_nsec + to_int32 (cd * NSECS_PER_TICK freq)
  if to_ulong tv_nsec ≥ NSECS then
    if tv_nsec < 0 then
      { tv_sec := tv_sec - 1, tv_nsec := tv_nsec + NSECS }
    else
      { tv_sec := tv_sec + 1, tv_nsec := tv_nsec - NSECS }
  else
    { tv_sec := tv_sec, tv_nsec := tv_nsec }

/-- Result of timer_check_periodic: the state afterwards, the value left in
the caller's `*ts`, and the returned `int`. -/
structure CheckResult where
  state : TimerState
  ts : timespec
  ret : Int
  deriving DecidableEq, Repr

/-- Check if a given time has past (timer.c, timer_check_periodic). -/
def timer_check_periodic (s : TimerState) (ts : timespec) : CheckResult :=
  if timespec_is_before s.next_wake_time ts then
    { state := s, ts := ts, ret := 0 }
  else
    let ts1 : timespec := s.next_wake_time
    { state := s, ts := { ts1 with tv_sec := ts1.tv_sec + 2 }, ret := 1 }

/-! ## Timers -/

/-- Return the current time in clock ticks (timer.c, timer_read_time);
`now` is the clock reading. -/
def timer_read_time (freq : Nat) (now : timespec) (s : TimerState) : Nat :=
  timespec_to_time freq s now

/-- Activate timer dispatch as soon as possible (timer.c, timer_kick);
`now` is the clock reading. -/
def timer_kick (freq : Nat) (now : timespec) (s : TimerState) : TimerState :=
  let s1 : TimerState := { s with next_wake_time := now }
  { s1 with next_wake_time_counter := timespec_to_time freq s1 s1.next_wake_time }

/-- Invoke timers (timer.c, timer_dispatch); `next` is the tick returned by
the one call to timer_dispatch_many. -/
def timer_dispatch (freq : Nat) (next : Nat) (s : TimerState) : TimerState :=
  let s1 : TimerState := { s with next_wake_time := timespec_from_time freq s next }
  { s1 with next_wake_time_counter := next }

/-- Initialisation (timer.c, timer_init); `t0` is the clock reading that
fixes start_sec and `t1` the reading taken by the timer_kick that follows. -/
def timer_init (freq : Nat) (t0 t1 : timespec) (s : TimerState) : TimerState :=
  let s1 : TimerState := { s with start_sec := t0.tv_sec + 1 }
  timer_kick freq t1 s1

/-! ## Interrupt wrappers -/

/-- Result of irq_poll: the state afterwards and the number of calls made to
the external timer_dispatch_many. -/
structure PollResult where
  state : TimerState
  dispatch_many_calls : Nat
  deriving DecidableEq, Repr

/-- Poll for a due timer (timer.c, irq_poll); `now` is the clock reading and
`next` the tick timer_dispatch_many returns if it is called. -/
def irq_poll (freq : Nat) (now : timespec) (next : Nat) (s : TimerState) : PollResult :=
  if !timespec_is_before now s.next_wake_time then
    { state := timer_dispatch freq next s, dispatch_many_calls := 1 }
  else
    { state := s, dispatch_many_calls := 0 }

/-! ## Vocabulary of the properties -/

/-- A wall time is normalized when its nanosecond field lies in [0, 1e9). -/
def normalized (ts : timespec) : Prop := 0 ≤ ts.tv_nsec ∧ ts.tv_nsec < NSECS

instance (ts : timespec) : Decidable (normalized ts) := by
  unfold normalized; infer_instance

/-- Order of wall times by seconds, then nanoseconds. -/
def timespec_le (a b : timespec) : Prop :=
  a.tv_sec < b.tv_sec ∨ (a.tv_sec = b.tv_sec ∧ a.tv_nsec ≤ b.tv_nsec)

instance (a b : timespec) : Decidable (timespec_le a b) := by
  unfold timespec_le; infer_instance

/-- The tick value of a wall time before its reduction to 32 bits: the
quantity timespec_to_time converts to `uint32_t`. -/
def unreduced_ticks (freq : Nat) (s : TimerState) (ts : timespec) : Int :=
  (ts.tv_sec - s.start_sec) * (freq : Int) + Int.tdiv ts.tv_nsec (NSECS_PER_TICK freq)

/-- Nanoseconds from the start of second start_sec to a wall time. -/
def nsecs_since_start (s : TimerState) (ts : timespec) : Int :=
  (ts.tv_sec - s.start_sec) * NSECS + ts.tv_nsec

/-- A wall time moved down to the tick boundary at or below it. -/
def truncate_to_tick (freq : Nat) (ts : timespec) : timespec :=
  { ts with tv_nsec := ts.tv_nsec - ts.tv_nsec % NSECS_PER_TICK freq }

/-- One call made by the rest of the firmware after timer_init: a timer_kick
with its clock reading, or a timer_dispatch with the tick the multiplexer
returns. -/
inductive Step where
  | kick (now : timespec)
  | dispatch (next : Nat)
  deriving DecidableEq, Repr

/-- The state after one call. -/
def step (freq : Nat) (s : TimerState) : Step → TimerState
  | Step.kick now => timer_kick freq now s
  | Step.dispatch next => timer_dispatch freq next s

/-- The state after a sequence of calls, first call first. -/
def run (freq : Nat) (s : TimerState) : List Step → TimerState
  | [] => s
  | st :: rest => run freq (step freq s st) rest

/-- What a call may carry: a kick reads a normalized wall time; a dispatch
receives a `uint32_t` tick whose signed difference to the current
next_wake_time_counter is less than one second of ticks. -/
def step_ok (freq : Nat) (s : TimerState) : Step → Prop
  | Step.kick now => normalized now
  | Step.dispatch next =>
      next < 4294967296
      ∧ -(freq : Int) < counter_diff next s.next_wake_time_counter
      ∧ counter_diff next s.next_wake_time_counter < (freq : Int)

instance (freq : Nat) (s : TimerState) (st : Step) : Decidable (step_ok freq s st) := by
  cases st <;> unfold step_ok <;> infer_instance

/-- Every call of a sequence is admissible in the state it is made in. -/
def steps_ok (freq : Nat) (s : TimerState) : List Step → Prop
  | [] => True
  | st :: rest => step_ok freq s st ∧ steps_ok freq (step freq s st) rest

instance steps_ok_decidable (freq : Nat) (s : TimerState) (steps : List Step) :
    Decidable (steps_ok freq s steps) := by
  induction steps generalizing s with
  | nil => unfold steps_ok; infer_instance
  | cons st rest ih =>
    unfold steps_ok
    exact instDecidableAnd

/-! ## Basic facts -/

theorem to_uint32_lt (x : Int) : to_uint32 x < 4294967296 := by
  unfold to_uint32; omega

theorem to_uint32_cast (x : Int) : ((to_uint32 x : Nat) : Int) = x % 4294967296 := by
  unfold to_uint32; omega

theorem counter_diff_eq (time counter : Nat) :
    counter_diff time counter = to_int32 ((time : Int) - (counter : Int)) := by
  unfold counter_diff to_int32
  rw [to_uint32_cast]; omega

theorem counter_diff_self (c : Nat) : counter_diff c c = 0 := by
  rw [counter_diff_eq]; unfold to_int32; omega

theorem to_int32_of_range (x : Int) (h1 : -2147483648 ≤ x) (h2 : x < 2147483648) :
    to_int32 x = x := by
  unfold to_int32; omega

theorem to_ulong_ge_iff (x : Int) (h1 : -9223372036854775808 ≤ x)
    (h2 : x < 9223372036854775808) :
    (to_ulong x ≥ NSECS ↔ (x < 0 ∨ NSECS ≤ x)) := by
  unfold to_ulong NSECS; omega

theorem timespec_is_before_iff (a b : timespec) :
    timespec_is_before a b = true ↔
      (a.tv_sec < b.tv_sec ∨ (a.tv_sec = b.tv_sec ∧ a.tv_nsec < b.tv_nsec)) := by
  simp [timespec_is_before]

theorem not_before_iff_le (a b : timespec) :
    timespec_is_before b a = false ↔ timespec_le a b := by
  rw [← Bool.not_eq_true, timespec_is_before_iff]
  unfold timespec_le; omega

/-! ## C1: round trip through the counter at a kicked state -/

theorem from_time_at_anchor (freq : Nat) (s : TimerState)
    (hn : normalized s.next_wake_time) :
    timespec_from_time freq s s.next_wake_time_counter = s.next_wake_time := by
  obtain ⟨h0, h1⟩ := hn
  unfold NSECS at h1
  have hu : ¬ (to_ulong (s.next_wake_time.tv_nsec) ≥ NSECS) := by
    rw [to_ulong_ge_iff _ (by omega) (by omega)]; unfold NSECS; omega
  simp only [timespec_from_time, counter_diff_self, zero_mul]
  have hz : to_int32 0 = 0 := by decide
  rw [hz, add_zero, if_neg hu]

/-- C1 (as stated, refuted): with 1000 ns ticks and the wake anchored by
timer_kick at wall time (101 s, 500 ns), which is not on a tick boundary, the
round trip returns (101 s, 500 ns) itself and not the truncated value
(101 s, 0 ns). -/
theorem C1_round_trip_not_truncated :
    (500 : Int) % NSECS_PER_TICK 1000000 ≠ 0
    ∧ normalized { tv_sec := 101, tv_nsec := 500 }
    ∧ timespec_from_time 1000000
        (timer_kick 1000000 { tv_sec := 101, tv_nsec := 500 }
          { next_wake_time_counter := 0, next_wake_time := { tv_sec := 0, tv_nsec := 0 },
            start_sec := 101 })
        (timespec_to_time 1000000
          (timer_kick 1000000 { tv_sec := 101, tv_nsec := 500 }
            { next_wake_time_counter := 0, next_wake_time := { tv_sec := 0, tv_nsec := 0 },
              start_sec := 101 })
          { tv_sec := 101, tv_nsec := 500 })
      ≠ truncate_to_tick 1000000 { tv_sec := 101, tv_nsec := 500 } := by
  decide

/-- C1 (amended): for every normalized wall time wt, when the wake is anchored
at wt by timer_kick, converting wt to a tick and back returns wt exactly,
whether or not wt lies on a tick boundary. -/
theorem C1_round_trip_exact (freq : Nat) (s0 : TimerState) (wt : timespec)
    (hn : normalized wt) :
    timespec_from_time freq (timer_kick freq wt s0)
      (timespec_to_time freq (timer_kick freq wt s0) wt) = wt := by
  have h := from_time_at_anchor freq (timer_kick freq wt s0) hn
  simpa [timer_kick] using h

theorem C1_round_trip_exact_witness :
    normalized { tv_sec := 101, tv_nsec := 500 }
    ∧ timespec_from_time 1000000
        (timer_kick 1000000 { tv_sec := 101, tv_nsec := 500 }
          { next_wake_time_counter := 7, next_wake_time := { tv_sec := 3, tv_nsec := 9 },
            start_sec := 101 })
        (timespec_to_time 1000000
          (timer_kick 1000000 { tv_sec := 101, tv_nsec := 500 }
            { next_wake_time_counter := 7, next_wake_time := { tv_sec := 3, tv_nsec := 9 },
              start_sec := 101 })
          { tv_sec := 101, tv_nsec := 500 })
      = { tv_sec := 101, tv_nsec := 500 } :=
  ⟨by decide, C1_round_trip_exact 1000000 _ _ (by decide)⟩

/-! ## Tick arithmetic for a frequency that divides one second -/

theorem tick_facts (freq : Nat) (hf : (freq : Int) ∣ NSECS) :
    0 < (freq : Int) ∧ 0 < NSECS_PER_TICK freq
      ∧ (freq : Int) * NSECS_PER_TICK freq = NSECS := by
  have hpos : 0 < (freq : Int) := by
    rcases Nat.eq_zero_or_pos freq with h | h
    · subst h
      rw [Nat.cast_zero, zero_dvd_iff] at hf
      exact absurd hf (by decide)
    · exact_mod_cast h
  have hq : NSECS_PER_TICK freq = NSECS / (freq : Int) := by
    unfold NSECS_PER_TICK
    exact Int.tdiv_eq_ediv (by decide) (le_of_lt hpos)
  have hmul : (freq : Int) * NSECS_PER_TICK freq = NSECS := by
    rw [hq]; exact Int.mul_ediv_cancel' hf
  refine ⟨hpos, ?_, hmul⟩
  by_contra hcon
  have hle : NSECS_PER_TICK freq ≤ 0 := not_lt.mp hcon
  have : (freq : Int) * NSECS_PER_TICK freq ≤ 0 :=
    mul_nonpos_of_nonneg_of_nonpos (le_of_lt hpos) hle
  rw [hmul] at this
  exact absurd this (by decide)

theorem unreduced_ticks_eq (freq : Nat) (s : TimerState) (ts : timespec)
    (hf : (freq : Int) ∣ NSECS) (hn : normalized ts) :
    unreduced_ticks freq s ts
      = (ts.tv_sec - s.start_sec) * (freq : Int) + ts.tv_nsec / NSECS_PER_TICK freq := by
  obtain ⟨_, hk, _⟩ := tick_facts freq hf
  unfold unreduced_ticks
  rw [Int.tdiv_eq_ediv hn.1 (le_of_lt hk)]

theorem nsec_ticks_bounds (freq : Nat) (ts : timespec)
    (hf : (freq : Int) ∣ NSECS) (hn : normalized ts) :
    0 ≤ ts.tv_nsec / NSECS_PER_TICK freq ∧ ts.tv_nsec / NSECS_PER_TICK freq < (freq : Int) := by
  obtain ⟨_, hk, hmul⟩ := tick_facts freq hf
  refine ⟨Int.ediv_nonneg hn.1 (le_of_lt hk), ?_⟩
  apply Int.ediv_lt_of_lt_mul hk
  rw [hmul]; exact hn.2

theorem unreduced_ticks_mono (freq : Nat) (s : TimerState) (t1 t2 : timespec)
    (hf : (freq : Int) ∣ NSECS) (h1 : normalized t1) (h2 : normalized t2)
    (hle : timespec_le t1 t2) :
    unreduced_ticks freq s t1 ≤ unreduced_ticks freq s t2 := by
  obtain ⟨hfpos, hk, _⟩ := tick_facts freq hf
  rw [unreduced_ticks_eq freq s t1 hf h1, unreduced_ticks_eq freq s t2 hf h2]
  obtain ⟨a0, a1⟩ := nsec_ticks_bounds freq t1 hf h1
  obtain ⟨b0, b1⟩ := nsec_ticks_bounds freq t2 hf h2
  rcases hle with hlt | ⟨heq, hns⟩
  · have hd : 1 ≤ t2.tv_sec - t1.tv_sec := by omega
    have hm : (freq : Int) ≤ (t2.tv_sec - t1.tv_sec) * (freq : Int) := by
      nlinarith
    nlinarith
  · rw [heq]
    have := Int.ediv_le_ediv hk hns
    omega

theorem timespec_to_time_eq (freq : Nat) (s : TimerState) (ts : timespec) :
    timespec_to_time freq s ts = to_uint32 (unreduced_ticks freq s ts) := rfl

theorem counter_diff_to_time (freq : Nat) (s : TimerState) (t1 t2 : timespec) :
    counter_diff (timespec_to_time freq s t2) (timespec_to_time freq s t1)
      = to_int32 (unreduced_ticks freq s t2 - unreduced_ticks freq s t1) := by
  rw [counter_diff_eq, timespec_to_time_eq, timespec_to_time_eq,
    to_uint32_cast, to_uint32_cast]
  unfold to_int32; omega

/-! ## C2: monotonicity of timespec_to_time -/

/-- C2 (as stated, refuted): at 16 MHz the tick duration is 1e9 / 16000000 =
62 ns, and the wall times (0 s, 999999999 ns) <= (1 s, 0 ns), whose unreduced
tick values are 129032 apart, convert to ticks 16129032 and 16000000: the
signed 32-bit difference is negative. -/
theorem C2_not_monotone_at_16MHz :
    normalized { tv_sec := 0, tv_nsec := 999999999 }
    ∧ normalized { tv_sec := 1, tv_nsec := 0 }
    ∧ timespec_le { tv_sec := 0, tv_nsec := 999999999 } { tv_sec := 1, tv_nsec := 0 }
    ∧ |unreduced_ticks 16000000
          { next_wake_time_counter := 0, next_wake_time := { tv_sec := 0, tv_nsec := 0 },
            start_sec := 0 } { tv_sec := 1, tv_nsec := 0 }
        - unreduced_ticks 16000000
          { next_wake_time_counter := 0, next_wake_time := { tv_sec := 0, tv_nsec := 0 },
            start_sec := 0 } { tv_sec := 0, tv_nsec := 999999999 }| < 2147483648
    ∧ counter_diff
        (timespec_to_time 16000000
          { next_wake_time_counter := 0, next_wake_time := { tv_sec := 0, tv_nsec := 0 },
            start_sec := 0 } { tv_sec := 1, tv_nsec := 0 })
        (timespec_to_time 16000000
          { next_wake_time_counter := 0, next_wake_time := { tv_sec := 0, tv_nsec := 0 },
            start_sec := 0 } { tv_sec := 0, tv_nsec := 999999999 })
      < 0 := by
  decide

/-- C2 (amended): for a clock frequency that divides 1e9, and every two
normalized wall times t1 <= t2 whose unreduced tick values are less than 2^31
apart, the signed 32-bit difference timespec_to_time(t2) - timespec_to_time(t1)
is non-negative; it is the true tick distance. -/
theorem C2_to_time_monotone (freq : Nat) (s : TimerState) (t1 t2 : timespec)
    (hf : (freq : Int) ∣ NSECS) (h1 : normalized t1) (h2 : normalized t2)
    (hle : timespec_le t1 t2)
    (hd : unreduced_ticks freq s t2 - unreduced_ticks freq s t1 < 2147483648) :
    0 ≤ counter_diff (timespec_to_time freq s t2) (timespec_to_time freq s t1)
    ∧ counter_diff (timespec_to_time freq s t2) (timespec_to_time freq s t1)
        = unreduced_ticks freq s t2 - unreduced_ticks freq s t1 := by
  have hm := unreduced_ticks_mono freq s t1 t2 hf h1 h2 hle
  rw [counter_diff_to_time, to_int32_of_range _ (by omega) hd]
  exact ⟨by omega, rfl⟩

theorem C2_to_time_monotone_witness :
    0 ≤ counter_diff
        (timespec_to_time 1000000
          { next_wake_time_counter := 0, next_wake_time := { tv_sec := 0, tv_nsec := 0 },
            start_sec := 101 } { tv_sec := 102, tv_nsec := 0 })
        (timespec_to_time 1000000
          { next_wake_time_counter := 0, next_wake_time := { tv_sec := 0, tv_nsec := 0 },
            start_sec := 101 } { tv_sec := 101, tv_nsec := 999999999 })
    ∧ counter_diff
        (timespec_to_time 1000000
          { next_wake_time_counter := 0, next_wake_time := { tv_sec := 0, tv_nsec := 0 },
            start_sec := 101 } { tv_sec := 102, tv_nsec := 0 })
        (timespec_to_time 1000000
          { next_wake_time_counter := 0, next_wake_time := { tv_sec := 0, tv_nsec := 0 },
            start_sec := 101 } { tv_sec := 101, tv_nsec := 999999999 })
      = unreduced_ticks 1000000
          { next_wake_time_counter := 0, next_wake_time := { tv_sec := 0, tv_nsec := 0 },
            start_sec := 101 } { tv_sec := 102, tv_nsec := 0 }
        - unreduced_ticks 1000000
          { next_wake_time_counter := 0, next_wake_time := { tv_sec := 0, tv_nsec := 0 },
            start_sec := 101 } { tv_sec := 101, tv_nsec := 999999999 } :=
  C2_to_time_monotone 1000000 _ _ _ (by decide) (by decide) (by decide) (by decide)
    (by decide)

/-! ## C3: the nanosecond field returned by timespec_from_time -/

theorem from_time_normalized_iff_aux (a n p : Int) (h0 : 0 ≤ n) (h1 : n < 1000000000)
    (hp0 : -2147483648 ≤ p) (hp1 : p < 2147483648) :
    normalized
        (if to_ulong (n + p) ≥ NSECS then
          if n + p < 0 then
            ({ tv_sec := a - 1, tv_nsec := n + p + NSECS } : timespec)
          else
            { tv_sec := a + 1, tv_nsec := n + p - NSECS }
        else
          { tv_sec := a, tv_nsec := n + p })
      ↔ (-NSECS ≤ n + p ∧ n + p < 2 * NSECS) := by
  have hu := to_ulong_ge_iff (n + p) (by omega) (by omega)
  unfold NSECS at hu
  unfold normalized NSECS
  by_cases hc : to_ulong (n + p) ≥ 1000000000
  · rw [if_pos hc]
    have hc2 := hu.mp hc
    by_cases hneg : n + p < 0
    · rw [if_pos hneg]; dsimp only; omega
    · rw [if_neg hneg]; dsimp only; omega
  · rw [if_neg hc]
    have hc2 : ¬ (n + p < 0 ∨ 1000000000 ≤ n + p) := fun h => hc (hu.mpr h)
    dsimp only; omega

/-- C3 (as stated, refuted): with 1000 ns ticks and the wake at tick 0, wall
time (101 s, 0 ns), the tick 2000000 lies two seconds ahead; the product
2000000 * 1000 = 2e9 fits an `int`, one second is carried, and the result is
(102 s, 1000000000 ns), whose nanosecond field is not below 1e9. -/
theorem C3_from_time_not_normalized :
    normalized (TimerState.next_wake_time
        { next_wake_time_counter := 0, next_wake_time := { tv_sec := 101, tv_nsec := 0 },
          start_sec := 101 })
    ∧ timespec_from_time 1000000
        { next_wake_time_counter := 0, next_wake_time := { tv_sec := 101, tv_nsec := 0 },
          start_sec := 101 } 2000000
      = { tv_sec := 102, tv_nsec := 1000000000 }
    ∧ ¬ normalized (timespec_from_time 1000000
        { next_wake_time_counter := 0, next_wake_time := { tv_sec := 101, tv_nsec := 0 },
          start_sec := 101 } 2000000) := by
  decide

/-- C3 (amended): for every tick t and every scheduled wake whose
next_wake_time is normalized and for which the product diff * tick duration
fits a 32-bit `int`, the result of timespec_from_time(t) is normalized exactly
when -1e9 <= next_wake_time.tv_nsec + diff * tick duration < 2e9, that is
when a single carry or borrow of one second suffices. -/
theorem C3_from_time_normalized_iff (freq : Nat) (s : TimerState) (t : Nat)
    (hn : normalized s.next_wake_time)
    (hov : -2147483648 ≤ counter_diff t s.next_wake_time_counter * NSECS_PER_TICK freq
      ∧ counter_diff t s.next_wake_time_counter * NSECS_PER_TICK freq < 2147483648) :
    normalized (timespec_from_time freq s t)
      ↔ (-NSECS ≤ s.next_wake_time.tv_nsec
            + counter_diff t s.next_wake_time_counter * NSECS_PER_TICK freq
          ∧ s.next_wake_time.tv_nsec
            + counter_diff t s.next_wake_time_counter * NSECS_PER_TICK freq < 2 * NSECS) := by
  obtain ⟨h0, h1⟩ := hn
  unfold NSECS at h1
  simp only [timespec_from_time]
  rw [to_int32_of_range _ hov.1 hov.2]
  exact from_time_normalized_iff_aux _ _ _ h0 h1 hov.1 hov.2

theorem C3_from_time_normalized_iff_witness :
    normalized (timespec_from_time 1000000
        { next_wake_time_counter := 500, next_wake_time := { tv_sec := 101, tv_nsec := 500 },
          start_sec := 101 } 1500500)
      ↔ (-NSECS ≤ (500 : Int) + counter_diff 1500500 500 * NSECS_PER_TICK 1000000
          ∧ (500 : Int) + counter_diff 1500500 500 * NSECS_PER_TICK 1000000 < 2 * NSECS) :=
  C3_from_time_normalized_iff 1000000
    { next_wake_time_counter := 500, next_wake_time := { tv_sec := 101, tv_nsec := 500 },
      start_sec := 101 } 1500500 (by decide) (by decide)

/-! ## C4: timespec_to_time truncates to the tick grid -/

theorem unreduced_ticks_eq_floor (freq : Nat) (s : TimerState) (ts : timespec)
    (hf : (freq : Int) ∣ NSECS) (hn : normalized ts) :
    unreduced_ticks freq s ts = nsecs_since_start s ts / NSECS_PER_TICK freq := by
  obtain ⟨_, hk, hmul⟩ := tick_facts freq hf
  rw [unreduced_ticks_eq freq s ts hf hn]
  have he : nsecs_since_start s ts
      = ts.tv_nsec + ((ts.tv_sec - s.start_sec) * (freq : Int)) * NSECS_PER_TICK freq := by
    unfold nsecs_since_start
    rw [mul_assoc, hmul]; ring
  rw [he, Int.add_mul_ediv_right _ _ (ne_of_gt hk)]
  ring

/-- C4: for a clock frequency that divides 1e9 and every normalized wall time
wt with wt.tv_sec >= start_sec, timespec_to_time(wt) is
(wt.tv_sec - start_sec) * frequency + wt.tv_nsec / tick duration reduced
modulo 2^32, and that sum is the floor of the nanoseconds elapsed since the
start of second start_sec divided by the tick duration: the elapsed time is
non-negative, the quotient q satisfies q * tick <= elapsed < (q + 1) * tick,
and it is also the quotient truncated toward zero. -/
theorem C4_to_time_truncates (freq : Nat) (s : TimerState) (wt : timespec)
    (hf : (freq : Int) ∣ NSECS) (hsec : s.start_sec ≤ wt.tv_sec) (hn : normalized wt) :
    ((timespec_to_time freq s wt : Nat) : Int)
        = ((wt.tv_sec - s.start_sec) * (freq : Int)
            + wt.tv_nsec / NSECS_PER_TICK freq) % 4294967296
    ∧ (wt.tv_sec - s.start_sec) * (freq : Int) + wt.tv_nsec / NSECS_PER_TICK freq
        = nsecs_since_start s wt / NSECS_PER_TICK freq
    ∧ 0 ≤ nsecs_since_start s wt
    ∧ nsecs_since_start s wt / NSECS_PER_TICK freq
        = Int.tdiv (nsecs_since_start s wt) (NSECS_PER_TICK freq)
    ∧ nsecs_since_start s wt / NSECS_PER_TICK freq * NSECS_PER_TICK freq
        ≤ nsecs_since_start s wt
    ∧ nsecs_since_start s wt
        < (nsecs_since_start s wt / NSECS_PER_TICK freq + 1) * NSECS_PER_TICK freq := by
  obtain ⟨_, hk, _⟩ := tick_facts freq hf
  have hq := unreduced_ticks_eq freq s wt hf hn
  have hfl := unreduced_ticks_eq_floor freq s wt hf hn
  have hnn : 0 ≤ nsecs_since_start s wt := by
    unfold nsecs_since_start
    have h1 : 0 ≤ (wt.tv_sec - s.start_sec) * NSECS :=
      mul_nonneg (by omega) (by decide)
    have h2 := hn.1
    omega
  refine ⟨?_, ?_, hnn, ?_, ?_, ?_⟩
  · rw [timespec_to_time_eq, to_uint32_cast, hq]
  · rw [← hq, hfl]
  · exact (Int.tdiv_eq_ediv hnn (le_of_lt hk)).symm
  · exact Int.ediv_mul_le _ (ne_of_gt hk)
  · exact Int.lt_ediv_add_one_mul_self _ hk

theorem C4_to_time_truncates_witness :
    ((timespec_to_time 1000000
        { next_wake_time_counter := 0, next_wake_time := { tv_sec := 0, tv_nsec := 0 },
          start_sec := 101 } { tv_sec := 103, tv_nsec := 1999 } : Nat) : Int) = 2000001 := by
  have h := (C4_to_time_truncates 1000000
    { next_wake_time_counter := 0, next_wake_time := { tv_sec := 0, tv_nsec := 0 },
      start_sec := 101 } { tv_sec := 103, tv_nsec := 1999 }
    (by decide) (by decide) (by decide)).1
  rw [h]; decide

/-! ## C5: rearm after dispatch -/

/-- C5: for every state and every tick N returned by the multiplexer, after
timer_dispatch the stored next_wake_time_counter is N, next_wake_time is
timespec_from_time(N) evaluated in the state before the dispatch (its
next_wake_time_counter and next_wake_time, not the new counter and not the
start of second start_sec), and start_sec is unchanged. -/
theorem C5_dispatch_rearms_from_previous (freq : Nat) (N : Nat) (s : TimerState) :
    (timer_dispatch freq N s).next_wake_time_counter = N
    ∧ (timer_dispatch freq N s).next_wake_time = timespec_from_time freq s N
    ∧ (timer_dispatch freq N s).next_wake_time
        = timespec_from_time freq
            { next_wake_time_counter := s.next_wake_time_counter,
              next_wake_time := s.next_wake_time,
              start_sec := (timer_dispatch freq N s).start_sec } N
    ∧ (timer_dispatch freq N s).start_sec = s.start_sec := by
  refine ⟨rfl, rfl, rfl, rfl⟩

/-! ## C6: dispatch never runs early -/

/-- C6: for every state and every clock reading now, irq_poll calls the
multiplexer at most once, and exactly once if and only if now is not before
next_wake_time; then the state is the one timer_dispatch leaves.  When now is
strictly before next_wake_time it makes no call and leaves next_wake_time,
next_wake_time_counter and start_sec unchanged. -/
theorem C6_poll_dispatches_iff_due (freq : Nat) (now : timespec) (next : Nat)
    (s : TimerState) :
    ((irq_poll freq now next s).dispatch_many_calls = 1
        ↔ timespec_is_before now s.next_wake_time = false)
    ∧ ((irq_poll freq now next s).dispatch_many_calls = 0
        ↔ timespec_is_before now s.next_wake_time = true)
    ∧ (timespec_is_before now s.next_wake_time = false →
        (irq_poll freq now next s).state = timer_dispatch freq next s)
    ∧ (timespec_is_before now s.next_wake_time = true →
        (irq_poll freq now next s).dispatch_many_calls = 0
        ∧ (irq_poll freq now next s).state.next_wake_time = s.next_wake_time
        ∧ (irq_poll freq now next s).state.next_wake_time_counter = s.next_wake_time_counter
        ∧ (irq_poll freq now next s).state.start_sec = s.start_sec) := by
  cases hb : timespec_is_before now s.next_wake_time <;> simp [irq_poll, hb]

/-! ## C7: kick immediacy -/

/-- C7: for every state and every pair of clock readings t1 <= t2, if
timer_kick reads t1 and the irq_poll that follows reads t2, then irq_poll
finds the wake time due and calls the multiplexer exactly once, leaving the
state timer_dispatch produces from the kicked state. -/
theorem C7_kick_then_poll_dispatches (freq : Nat) (t1 t2 : timespec) (next : Nat)
    (s : TimerState) (hle : timespec_le t1 t2) :
    timespec_is_before t2 (timer_kick freq t1 s).next_wake_time = false
    ∧ (irq_poll freq t2 next (timer_kick freq t1 s)).dispatch_many_calls = 1
    ∧ (irq_poll freq t2 next (timer_kick freq t1 s)).state
        = timer_dispatch freq next (timer_kick freq t1 s) := by
  have hb : timespec_is_before t2 (timer_kick freq t1 s).next_wake_time = false := by
    have : (timer_kick freq t1 s).next_wake_time = t1 := rfl
    rw [this]; exact (not_before_iff_le t1 t2).mpr hle
  refine ⟨hb, ?_, ?_⟩ <;> simp [irq_poll, hb]

theorem C7_kick_then_poll_dispatches_witness :
    (irq_poll 1000000 { tv_sec := 101, tv_nsec := 500 } 1500500
      (timer_kick 1000000 { tv_sec := 101, tv_nsec := 500 }
        { next_wake_time_counter := 0, next_wake_time := { tv_sec := 200, tv_nsec := 0 },
          start_sec := 101 })).dispatch_many_calls = 1 :=
  (C7_kick_then_poll_dispatches 1000000 { tv_sec := 101, tv_nsec := 500 }
    { tv_sec := 101, tv_nsec := 500 } 1500500
    { next_wake_time_counter := 0, next_wake_time := { tv_sec := 200, tv_nsec := 0 },
      start_sec := 101 } (by decide)).2.1

/-! ## Exactness of timespec_from_time and consistency of the two halves -/

theorem from_time_total_aux (a n p : Int) (r : timespec)
    (hr : r = (if to_ulong (n + p) ≥ NSECS then
          if n + p < 0 then
            ({ tv_sec := a - 1, tv_nsec := n + p + NSECS } : timespec)
          else
            { tv_sec := a + 1, tv_nsec := n + p - NSECS }
        else
          { tv_sec := a, tv_nsec := n + p })) :
    r.tv_sec * NSECS + r.tv_nsec = a * NSECS + n + p := by
  subst hr
  split_ifs <;> dsimp only <;> unfold NSECS <;> omega

theorem from_time_total (freq : Nat) (s : TimerState) (t : Nat)
    (hov : -2147483648 ≤ counter_diff t s.next_wake_time_counter * NSECS_PER_TICK freq
      ∧ counter_diff t s.next_wake_time_counter * NSECS_PER_TICK freq < 2147483648) :
    nsecs_since_start s (timespec_from_time freq s t)
      = nsecs_since_start s s.next_wake_time
        + counter_diff t s.next_wake_time_counter * NSECS_PER_TICK freq := by
  have h := from_time_total_aux s.next_wake_time.tv_sec s.next_wake_time.tv_nsec
    (counter_diff t s.next_wake_time_counter * NSECS_PER_TICK freq)
    (timespec_from_time freq s t)
    (by simp only [timespec_from_time]; rw [to_int32_of_range _ hov.1 hov.2])
  unfold nsecs_since_start
  linarith

theorem within_one_second (freq : Nat) (s : TimerState) (t : Nat)
    (hn : normalized s.next_wake_time)
    (hone : -NSECS ≤ counter_diff t s.next_wake_time_counter * NSECS_PER_TICK freq
      ∧ counter_diff t s.next_wake_time_counter * NSECS_PER_TICK freq ≤ NSECS) :
    (-2147483648 ≤ counter_diff t s.next_wake_time_counter * NSECS_PER_TICK freq
      ∧ counter_diff t s.next_wake_time_counter * NSECS_PER_TICK freq < 2147483648)
    ∧ normalized (timespec_from_time freq s t) := by
  obtain ⟨h0, h1⟩ := hn
  obtain ⟨ha, hb⟩ := hone
  unfold NSECS at h1 ha hb
  have hov : -2147483648 ≤ counter_diff t s.next_wake_time_counter * NSECS_PER_TICK freq
      ∧ counter_diff t s.next_wake_time_counter * NSECS_PER_TICK freq < 2147483648 :=
    ⟨by omega, by omega⟩
  refine ⟨hov, ?_⟩
  simp only [timespec_from_time]
  rw [to_int32_of_range _ hov.1 hov.2]
  rw [from_time_normalized_iff_aux _ _ _ h0 h1 hov.1 hov.2]
  unfold NSECS; omega

theorem from_time_unreduced_ticks (freq : Nat) (s : TimerState) (t : Nat)
    (hf : (freq : Int) ∣ NSECS) (hn : normalized s.next_wake_time)
    (hone : -NSECS ≤ counter_diff t s.next_wake_time_counter * NSECS_PER_TICK freq
      ∧ counter_diff t s.next_wake_time_counter * NSECS_PER_TICK freq ≤ NSECS) :
    unreduced_ticks freq s (timespec_from_time freq s t)
      = unreduced_ticks freq s s.next_wake_time
        + counter_diff t s.next_wake_time_counter := by
  obtain ⟨_, hk, _⟩ := tick_facts freq hf
  obtain ⟨hov, hnr⟩ := within_one_second freq s t hn hone
  rw [unreduced_ticks_eq_floor freq s _ hf hnr, unreduced_ticks_eq_floor freq s _ hf hn,
    from_time_total freq s t hov, Int.add_mul_ediv_right _ _ (ne_of_gt hk)]

theorem dispatch_keeps_consistent (freq : Nat) (s : TimerState) (N : Nat)
    (hf : (freq : Int) ∣ NSECS) (hn : normalized s.next_wake_time)
    (hc : s.next_wake_time_counter = timespec_to_time freq s s.next_wake_time)
    (hN : N < 4294967296)
    (hone : -NSECS ≤ counter_diff N s.next_wake_time_counter * NSECS_PER_TICK freq
      ∧ counter_diff N s.next_wake_time_counter * NSECS_PER_TICK freq ≤ NSECS) :
    timespec_to_time freq s (timespec_from_time freq s N) = N := by
  have hu := from_time_unreduced_ticks freq s N hf hn hone
  have hcd := counter_diff_eq N s.next_wake_time_counter
  have hcc : ((s.next_wake_time_counter : Nat) : Int)
      = unreduced_ticks freq s s.next_wake_time % 4294967296 := by
    rw [hc, timespec_to_time_eq, to_uint32_cast]
  rw [timespec_to_time_eq, hu, hcd]
  unfold to_uint32 to_int32
  omega

/-! ## C8: the rearm gate after a dispatch -/

/-- C8 (as stated, refuted): with 1000 ns ticks, the state kicked at
(101 s, 0 ns) has its wake at tick 0; the multiplexer reports N = 5 and
timer_dispatch moves the wake to (101 s, 5000 ns).  The clock reading
(101 s, 5000 ns) has tick value 5 <= N, yet irq_poll at that reading calls the
multiplexer and changes the state. -/
theorem C8_poll_at_tick_N_dispatches :
    normalized (TimerState.next_wake_time
        { next_wake_time_counter := 0, next_wake_time := { tv_sec := 101, tv_nsec := 0 },
          start_sec := 101 })
    ∧ timer_dispatch 1000000 5
        { next_wake_time_counter := 0, next_wake_time := { tv_sec := 101, tv_nsec := 0 },
          start_sec := 101 }
      = { next_wake_time_counter := 5, next_wake_time := { tv_sec := 101, tv_nsec := 5000 },
          start_sec := 101 }
    ∧ timespec_to_time 1000000
        { next_wake_time_counter := 5, next_wake_time := { tv_sec := 101, tv_nsec := 5000 },
          start_sec := 101 } { tv_sec := 101, tv_nsec := 5000 } = 5
    ∧ 0 ≤ counter_diff 5 (timespec_to_time 1000000
        { next_wake_time_counter := 5, next_wake_time := { tv_sec := 101, tv_nsec := 5000 },
          start_sec := 101 } { tv_sec := 101, tv_nsec := 5000 })
    ∧ (irq_poll 1000000 { tv_sec := 101, tv_nsec := 5000 } 10
        { next_wake_time_counter := 5, next_wake_time := { tv_sec := 101, tv_nsec := 5000 },
          start_sec := 101 }).dispatch_many_calls = 1
    ∧ (irq_poll 1000000 { tv_sec := 101, tv_nsec := 5000 } 10
        { next_wake_time_counter := 5, next_wake_time := { tv_sec := 101, tv_nsec := 5000 },
          start_sec := 101 }).state
      ≠ { next_wake_time_counter := 5, next_wake_time := { tv_sec := 101, tv_nsec := 5000 },
          start_sec := 101 } := by
  decide

/-- C8 (amended): for a clock frequency that divides 1e9 and every normalized
state whose counter is the tick of its wake time, if the multiplexer reports a
tick N within one second of that counter, then for every normalized clock
reading now that lies less than 2^31 ticks from the new wake time and whose
tick value is strictly below N (signed wraparound comparison), now is before
the new wake time and irq_poll at now is a no-op: it makes no call to the
multiplexer and leaves the state unchanged. -/
theorem C8_poll_before_tick_N_is_noop (freq : Nat) (s : TimerState) (N next : Nat)
    (now : timespec)
    (hf : (freq : Int) ∣ NSECS) (hn : normalized s.next_wake_time)
    (hc : s.next_wake_time_counter = timespec_to_time freq s s.next_wake_time)
    (hN : N < 4294967296)
    (hone : -NSECS ≤ counter_diff N s.next_wake_time_counter * NSECS_PER_TICK freq
      ∧ counter_diff N s.next_wake_time_counter * NSECS_PER_TICK freq ≤ NSECS)
    (hnow : normalized now)
    (hhor : |unreduced_ticks freq s (timer_dispatch freq N s).next_wake_time
        - unreduced_ticks freq s now| < 2147483648)
    (hlt : 0 < counter_diff N (timespec_to_time freq (timer_dispatch freq N s) now)) :
    timespec_is_before now (timer_dispatch freq N s).next_wake_time = true
    ∧ irq_poll freq now next (timer_dispatch freq N s)
      = { state := timer_dispatch freq N s, dispatch_many_calls := 0 } := by
  have hr : (timer_dispatch freq N s).next_wake_time = timespec_from_time freq s N := rfl
  have hst : timespec_to_time freq (timer_dispatch freq N s) now
      = timespec_to_time freq s now := rfl
  rw [hr] at hhor ⊢
  rw [hst] at hlt
  obtain ⟨_, hnr⟩ := within_one_second freq s N hn hone
  have hkeep := dispatch_keeps_consistent freq s N hf hn hc hN hone
  have hlt2 : 0 < counter_diff (timespec_to_time freq s (timespec_from_time freq s N))
      (timespec_to_time freq s now) := by
    rw [hkeep]; exact hlt
  rw [abs_lt] at hhor
  rw [counter_diff_to_time, to_int32_of_range _ (by omega) (by omega)] at hlt2
  have hb : timespec_is_before now (timespec_from_time freq s N) = true := by
    by_contra hcon
    have hfalse : timespec_is_before now (timespec_from_time freq s N) = false := by
      simpa using hcon
    have hle := (not_before_iff_le _ _).mp hfalse
    have := unreduced_ticks_mono freq s _ _ hf hnr hnow hle
    omega
  refine ⟨hb, ?_⟩
  simp [irq_poll, hr, hb]

theorem C8_poll_before_tick_N_is_noop_witness :
    timespec_is_before { tv_sec := 101, tv_nsec := 4999 }
        (timer_dispatch 1000000 5
          { next_wake_time_counter := 0, next_wake_time := { tv_sec := 101, tv_nsec := 0 },
            start_sec := 101 }).next_wake_time = true
    ∧ irq_poll 1000000 { tv_sec := 101, tv_nsec := 4999 } 10
        (timer_dispatch 1000000 5
          { next_wake_time_counter := 0, next_wake_time := { tv_sec := 101, tv_nsec := 0 },
            start_sec := 101 })
      = { state := timer_dispatch 1000000 5
            { next_wake_time_counter := 0, next_wake_time := { tv_sec := 101, tv_nsec := 0 },
              start_sec := 101 },
          dispatch_many_calls := 0 } :=
  C8_poll_before_tick_N_is_noop 1000000
    { next_wake_time_counter := 0, next_wake_time := { tv_sec := 101, tv_nsec := 0 },
      start_sec := 101 } 5 10 { tv_sec := 101, tv_nsec := 4999 }
    (by decide) (by decide) (by decide) (by decide) (by decide) (by decide) (by decide)
    (by decide)

/-! ## C9: decision rule of timer_check_periodic -/

/-- C9 (as stated, refuted): with the wake at (10 s, 0 ns) and the caller
deadline ts = (15 s, 7 ns), next_wake_time is strictly before ts, yet
timer_check_periodic returns 0 and leaves ts unchanged instead of returning
true with ts = (12 s, 0 ns); and with ts = (5 s, 0 ns), where next_wake_time
is not before ts, it returns 1 and moves ts to (12 s, 0 ns). -/
theorem C9_decision_rule_is_reversed :
    timespec_is_before { tv_sec := 10, tv_nsec := 0 } { tv_sec := 15, tv_nsec := 7 } = true
    ∧ timer_check_periodic
        { next_wake_time_counter := 0, next_wake_time := { tv_sec := 10, tv_nsec := 0 },
          start_sec := 0 } { tv_sec := 15, tv_nsec := 7 }
      = { state :=
            { next_wake_time_counter := 0, next_wake_time := { tv_sec := 10, tv_nsec := 0 },
              start_sec := 0 },
          ts := { tv_sec := 15, tv_nsec := 7 }, ret := 0 }
    ∧ timespec_is_before { tv_sec := 10, tv_nsec := 0 } { tv_sec := 5, tv_nsec := 0 } = false
    ∧ timer_check_periodic
        { next_wake_time_counter := 0, next_wake_time := { tv_sec := 10, tv_nsec := 0 },
          start_sec := 0 } { tv_sec := 5, tv_nsec := 0 }
      = { state :=
            { next_wake_time_counter := 0, next_wake_time := { tv_sec := 10, tv_nsec := 0 },
              start_sec := 0 },
          ts := { tv_sec := 12, tv_nsec := 0 }, ret := 1 } := by
  decide

/-- C9 (amended): for every state and every caller deadline ts,
timer_check_periodic returns 0 exactly when next_wake_time is strictly before
ts, and then leaves ts unchanged; otherwise (next_wake_time is not strictly
before ts) it returns 1 and sets ts to next_wake_time plus 2 seconds.  The
state is unchanged in both cases. -/
theorem C9_check_periodic_rule (s : TimerState) (ts : timespec) :
    ((timer_check_periodic s ts).ret = 0
        ↔ timespec_is_before s.next_wake_time ts = true)
    ∧ ((timer_check_periodic s ts).ret = 1
        ↔ timespec_is_before s.next_wake_time ts = false)
    ∧ (timespec_is_before s.next_wake_time ts = true →
        (timer_check_periodic s ts).ts = ts)
    ∧ (timespec_is_before s.next_wake_time ts = false →
        (timer_check_periodic s ts).ts
          = { tv_sec := s.next_wake_time.tv_sec + 2, tv_nsec := s.next_wake_time.tv_nsec })
    ∧ (timer_check_periodic s ts).state = s := by
  cases hb : timespec_is_before s.next_wake_time ts <;> simp [timer_check_periodic, hb]

/-! ## C10: the periodic gate -/

/-- C10: for every state, with T its next_wake_time, timer_check_periodic
called with ts = T - 1 second returns 1 and sets ts to T + 2 seconds (same
nanosecond field as T) without changing the state; a second call with that ts
returns 0 and leaves ts at T + 2 seconds. -/
theorem C10_periodic_gate (s : TimerState) :
    (timer_check_periodic s
        { tv_sec := s.next_wake_time.tv_sec - 1, tv_nsec := s.next_wake_time.tv_nsec }).ret = 1
    ∧ (timer_check_periodic s
        { tv_sec := s.next_wake_time.tv_sec - 1, tv_nsec := s.next_wake_time.tv_nsec }).ts
      = { tv_sec := s.next_wake_time.tv_sec + 2, tv_nsec := s.next_wake_time.tv_nsec }
    ∧ (timer_check_periodic s
        { tv_sec := s.next_wake_time.tv_sec - 1, tv_nsec := s.next_wake_time.tv_nsec }).state
      = s
    ∧ (timer_check_periodic
        (timer_check_periodic s
          { tv_sec := s.next_wake_time.tv_sec - 1,
            tv_nsec := s.next_wake_time.tv_nsec }).state
        (timer_check_periodic s
          { tv_sec := s.next_wake_time.tv_sec - 1,
            tv_nsec := s.next_wake_time.tv_nsec }).ts).ret = 0
    ∧ (timer_check_periodic
        (timer_check_periodic s
          { tv_sec := s.next_wake_time.tv_sec - 1,
            tv_nsec := s.next_wake_time.tv_nsec }).state
        (timer_check_periodic s
          { tv_sec := s.next_wake_time.tv_sec - 1,
            tv_nsec := s.next_wake_time.tv_nsec }).ts).ts
      = { tv_sec := s.next_wake_time.tv_sec + 2, tv_nsec := s.next_wake_time.tv_nsec } := by
  have h1 : timespec_is_before s.next_wake_time
      { tv_sec := s.next_wake_time.tv_sec - 1, tv_nsec := s.next_wake_time.tv_nsec }
      = false := by
    rw [← Bool.not_eq_true, timespec_is_before_iff]; dsimp only; omega
  have h2 : timespec_is_before s.next_wake_time
      { tv_sec := s.next_wake_time.tv_sec + 2, tv_nsec := s.next_wake_time.tv_nsec }
      = true := by
    rw [timespec_is_before_iff]; dsimp only; omega
  have e1 : timer_check_periodic s
      { tv_sec := s.next_wake_time.tv_sec - 1, tv_nsec := s.next_wake_time.tv_nsec }
      = { state := s,
          ts := { tv_sec := s.next_wake_time.tv_sec + 2,
                  tv_nsec := s.next_wake_time.tv_nsec },
          ret := 1 } := by
    simp [timer_check_periodic, h1]
  rw [e1]
  refine ⟨rfl, rfl, rfl, ?_, ?_⟩ <;> simp [timer_check_periodic, h2]

/-! ## C11: wraparound safety of the tick difference -/

theorem from_time_before_aux (a n p : Int) (h0 : 0 ≤ n) (h1 : n < 1000000000)
    (hp0 : -2147483648 ≤ p) (hp1 : p < 2147483648) (r : timespec)
    (hr : r = (if to_ulong (n + p) ≥ NSECS then
          if n + p < 0 then
            ({ tv_sec := a - 1, tv_nsec := n + p + NSECS } : timespec)
          else
            { tv_sec := a + 1, tv_nsec := n + p - NSECS }
        else
          { tv_sec := a, tv_nsec := n + p })) :
    (r.tv_sec < a ∨ (r.tv_sec = a ∧ r.tv_nsec < n)) ↔ p < 0 := by
  have hu := to_ulong_ge_iff (n + p) (by omega) (by omega)
  unfold NSECS at hu
  subst hr
  unfold NSECS
  by_cases hc : to_ulong (n + p) ≥ 1000000000
  · rw [if_pos hc]
    have hc2 := hu.mp hc
    by_cases hneg : n + p < 0
    · rw [if_pos hneg]; dsimp only; omega
    · rw [if_neg hneg]; dsimp only; omega
  · rw [if_neg hc]
    have hc2 : ¬ (n + p < 0 ∨ 1000000000 ≤ n + p) := fun h => hc (hu.mpr h)
    dsimp only; omega

theorem from_time_before_iff (freq : Nat) (s : TimerState) (t : Nat)
    (hn : normalized s.next_wake_time)
    (hov : -2147483648 ≤ counter_diff t s.next_wake_time_counter * NSECS_PER_TICK freq
      ∧ counter_diff t s.next_wake_time_counter * NSECS_PER_TICK freq < 2147483648) :
    timespec_is_before (timespec_from_time freq s t) s.next_wake_time = true
      ↔ counter_diff t s.next_wake_time_counter * NSECS_PER_TICK freq < 0 := by
  obtain ⟨h0, h1⟩ := hn
  unfold NSECS at h1
  rw [timespec_is_before_iff]
  exact from_time_before_aux s.next_wake_time.tv_sec s.next_wake_time.tv_nsec
    (counter_diff t s.next_wake_time_counter * NSECS_PER_TICK freq) h0 h1 hov.1 hov.2
    (timespec_from_time freq s t)
    (by simp only [timespec_from_time]; rw [to_int32_of_range _ hov.1 hov.2])

theorem counter_diff_half_range (a : Nat) :
    counter_diff (to_uint32 ((a : Int) + 2147483647)) a = 2147483647
    ∧ counter_diff (to_uint32 ((a : Int) + 2147483649)) a = -2147483647 := by
  rw [counter_diff_eq, counter_diff_eq, to_uint32_cast, to_uint32_cast]
  unfold to_int32
  omega

/-- C11 (as stated, refuted): with 1000 ns ticks and the wake at tick 0, wall
time (101 s, 0 ns), the tick b = 2^31 - 1 has signed difference 2147483647,
but the product 2147483647 * 1000 does not fit a 32-bit `int`; wrapped to 32
bits it is -1000, and the resulting wall time (100 s, 999999000 ns) is before
next_wake_time. -/
theorem C11_wall_time_wraps_at_half_range :
    counter_diff (to_uint32 ((0 : Int) + 2147483647)) 0 = 2147483647
    ∧ ¬ ((2147483647 : Int) * NSECS_PER_TICK 1000000 < 2147483648)
    ∧ timespec_from_time 1000000
        { next_wake_time_counter := 0, next_wake_time := { tv_sec := 101, tv_nsec := 0 },
          start_sec := 101 } (to_uint32 ((0 : Int) + 2147483647))
      = { tv_sec := 100, tv_nsec := 999999000 }
    ∧ timespec_is_before
        (timespec_from_time 1000000
          { next_wake_time_counter := 0, next_wake_time := { tv_sec := 101, tv_nsec := 0 },
            start_sec := 101 } (to_uint32 ((0 : Int) + 2147483647)))
        { tv_sec := 101, tv_nsec := 0 } = true := by
  decide

/-- C11 (amended): for every state, with a its next_wake_time_counter, the
signed 32-bit difference computed for b = a + 2^31 - 1 (mod 2^32) is
2^31 - 1, positive, and for a + 2^31 + 1 (mod 2^32) it is -(2^31 - 1),
negative.  When next_wake_time is normalized, the tick duration is positive
and the product (2^31 - 1) * tick duration fits a 32-bit `int`, the wall time
computed for b is not before next_wake_time and the one computed for
a + 2^31 + 1 is before it. -/
theorem C11_wraparound_difference (freq : Nat) (s : TimerState) :
    counter_diff (to_uint32 ((s.next_wake_time_counter : Int) + 2147483647))
        s.next_wake_time_counter = 2147483647
    ∧ counter_diff (to_uint32 ((s.next_wake_time_counter : Int) + 2147483649))
        s.next_wake_time_counter = -2147483647
    ∧ (normalized s.next_wake_time → 0 < NSECS_PER_TICK freq →
        2147483647 * NSECS_PER_TICK freq < 2147483648 →
        timespec_is_before
            (timespec_from_time freq s
              (to_uint32 ((s.next_wake_time_counter : Int) + 2147483647)))
            s.next_wake_time = false
        ∧ timespec_is_before
            (timespec_from_time freq s
              (to_uint32 ((s.next_wake_time_counter : Int) + 2147483649)))
            s.next_wake_time = true) := by
  obtain ⟨hb, hb2⟩ := counter_diff_half_range s.next_wake_time_counter
  refine ⟨hb, hb2, ?_⟩
  intro hn hpos hfit
  refine ⟨?_, ?_⟩
  · rw [← Bool.not_eq_true, from_time_before_iff freq s _ hn (by rw [hb]; omega), hb]
    omega
  · rw [from_time_before_iff freq s _ hn (by rw [hb2]; omega), hb2]
    omega

theorem C11_wraparound_difference_witness :
    timespec_is_before
        (timespec_from_time 1000000000
          { next_wake_time_counter := 4294967290,
            next_wake_time := { tv_sec := 101, tv_nsec := 500 }, start_sec := 101 }
          (to_uint32 (((4294967290 : Nat) : Int) + 2147483647)))
        { tv_sec := 101, tv_nsec := 500 } = false
    ∧ timespec_is_before
        (timespec_from_time 1000000000
          { next_wake_time_counter := 4294967290,
            next_wake_time := { tv_sec := 101, tv_nsec := 500 }, start_sec := 101 }
          (to_uint32 (((4294967290 : Nat) : Int) + 2147483649)))
        { tv_sec := 101, tv_nsec := 500 } = true :=
  (C11_wraparound_difference 1000000000
    { next_wake_time_counter := 4294967290,
      next_wake_time := { tv_sec := 101, tv_nsec := 500 }, start_sec := 101 }).2.2
    (by decide) (by decide) (by decide)

/-! ## C12: the first readings and start_sec -/

/-- C12 (as stated, refuted): when timer_init reads (100 s, 0 ns) and the
timer_kick inside it then reads (100 s, 5 ns), start_sec is 101 and the kick
reading has tv_sec = 100 < start_sec; its tick value is the wrapped negative
-1000000. -/
theorem C12_kick_reading_precedes_start_sec :
    timespec_le { tv_sec := 100, tv_nsec := 0 } { tv_sec := 100, tv_nsec := 5 }
    ∧ (timer_init 1000000 { tv_sec := 100, tv_nsec := 0 } { tv_sec := 100, tv_nsec := 5 }
        { next_wake_time_counter := 0, next_wake_time := { tv_sec := 0, tv_nsec := 0 },
          start_sec := 0 }).start_sec = 101
    ∧ ¬ ((timer_init 1000000 { tv_sec := 100, tv_nsec := 0 } { tv_sec := 100, tv_nsec := 5 }
        { next_wake_time_counter := 0, next_wake_time := { tv_sec := 0, tv_nsec := 0 },
          start_sec := 0 }).start_sec ≤ (100 : Int))
    ∧ (timer_init 1000000 { tv_sec := 100, tv_nsec := 0 } { tv_sec := 100, tv_nsec := 5 }
        { next_wake_time_counter := 0, next_wake_time := { tv_sec := 0, tv_nsec := 0 },
          start_sec := 0 }).next_wake_time_counter = 4293967296 := by
  decide

/-- C12 (amended): after timer_init, start_sec is the seconds field of the
first clock reading t0 plus one; every wall time t read at or after
initialization (t0 <= t, the reading of the timer_kick inside timer_init
included) has tv_sec >= start_sec - 1, and has tv_sec >= start_sec exactly
when its seconds field is past that of t0. -/
theorem C12_start_sec_is_one_second_ahead (freq : Nat) (t0 t1 t : timespec)
    (s0 : TimerState) (hle : timespec_le t0 t) :
    (timer_init freq t0 t1 s0).start_sec = t0.tv_sec + 1
    ∧ (timer_init freq t0 t1 s0).start_sec - 1 ≤ t.tv_sec
    ∧ ((timer_init freq t0 t1 s0).start_sec ≤ t.tv_sec ↔ t0.tv_sec < t.tv_sec) := by
  have hs : (timer_init freq t0 t1 s0).start_sec = t0.tv_sec + 1 := rfl
  rw [hs]
  unfold timespec_le at hle
  refine ⟨rfl, by omega, by omega⟩

theorem C12_start_sec_is_one_second_ahead_witness :
    (timer_init 1000000 { tv_sec := 100, tv_nsec := 0 } { tv_sec := 100, tv_nsec := 5 }
        { next_wake_time_counter := 0, next_wake_time := { tv_sec := 0, tv_nsec := 0 },
          start_sec := 0 }).start_sec - 1 ≤ (100 : Int) :=
  (C12_start_sec_is_one_second_ahead 1000000 { tv_sec := 100, tv_nsec := 0 }
    { tv_sec := 100, tv_nsec := 5 } { tv_sec := 100, tv_nsec := 5 }
    { next_wake_time_counter := 0, next_wake_time := { tv_sec := 0, tv_nsec := 0 },
      start_sec := 0 } (by decide)).2.1

/-! ## C13: the scenario, conversion half -/

/-- C13 (as stated, refuted): at 1000000 ticks per second, after timer_init
read (100 s, 0 ns), start_sec is 101 but the wall time (101 s, 500 ns)
converts to a tick other than 500. -/
theorem C13_tick_of_500ns_is_not_500 :
    (timer_init 1000000 { tv_sec := 100, tv_nsec := 0 } { tv_sec := 100, tv_nsec := 0 }
        { next_wake_time_counter := 0, next_wake_time := { tv_sec := 0, tv_nsec := 0 },
          start_sec := 0 }).start_sec = 101
    ∧ timespec_to_time 1000000
        (timer_init 1000000 { tv_sec := 100, tv_nsec := 0 } { tv_sec := 100, tv_nsec := 0 }
          { next_wake_time_counter := 0, next_wake_time := { tv_sec := 0, tv_nsec := 0 },
            start_sec := 0 })
        { tv_sec := 101, tv_nsec := 500 } ≠ 500 := by
  decide

/-- C13 (amended): with frequency 1000000 ticks per second (tick duration
1000 ns), if the clock reads (100 s, 0 ns) when timer_init runs then start_sec
is 101, whatever the timer_kick inside it reads, and timespec_to_time of
(101 s, 500 ns) is tick 0, since 500 ns is less than one tick; tick 500 is the
value of (101 s, 500000 ns). -/
theorem C13_scenario_conversion (t1 : timespec) (s0 : TimerState) :
    NSECS_PER_TICK 1000000 = 1000
    ∧ (timer_init 1000000 { tv_sec := 100, tv_nsec := 0 } t1 s0).start_sec = 101
    ∧ timespec_to_time 1000000
        (timer_init 1000000 { tv_sec := 100, tv_nsec := 0 } t1 s0)
        { tv_sec := 101, tv_nsec := 500 } = 0
    ∧ timespec_to_time 1000000
        (timer_init 1000000 { tv_sec := 100, tv_nsec := 0 } t1 s0)
        { tv_sec := 101, tv_nsec := 500000 } = 500 := by
  have hs : (timer_init 1000000 { tv_sec := 100, tv_nsec := 0 } t1 s0).start_sec = 101 := by
    show (100 : Int) + 1 = 101
    decide
  refine ⟨by decide, hs, ?_, ?_⟩
  · unfold timespec_to_time
    rw [hs]; decide
  · unfold timespec_to_time
    rw [hs]; decide

/-! ## C14: the scenario, rearm half -/

/-- C14 (as stated, refuted): at 1000000 ticks per second, with start_sec 101
and the wake at tick 500, wall time (101 s, 500 ns), a multiplexer tick of
1500500 does not leave next_wake_time at (102 s, 500 ns). -/
theorem C14_rearm_is_not_102s_500ns :
    (timer_dispatch 1000000 1500500
        { next_wake_time_counter := 500, next_wake_time := { tv_sec := 101, tv_nsec := 500 },
          start_sec := 101 }).next_wake_time
      ≠ { tv_sec := 102, tv_nsec := 500 } := by
  decide

/-- C14 (amended): at 1000000 ticks per second, with start_sec 101 and the
wake at tick 500, wall time (101 s, 500 ns), if the multiplexer returns tick
1500500 then the tick difference is 1500000, that is 1500000000 ns, and
timer_dispatch sets next_wake_time to (102 s, 500000500 ns) and
next_wake_time_counter to 1500500. -/
theorem C14_scenario_rearm :
    counter_diff 1500500 500 * NSECS_PER_TICK 1000000 = 1500000000
    ∧ timer_dispatch 1000000 1500500
        { next_wake_time_counter := 500, next_wake_time := { tv_sec := 101, tv_nsec := 500 },
          start_sec := 101 }
      = { next_wake_time_counter := 1500500,
          next_wake_time := { tv_sec := 102, tv_nsec := 500000500 },
          start_sec := 101 } := by
  decide

/-! ## C15: timer_check_periodic leaves the scheduler state alone -/

/-- C15: for every state and every ts, whatever timer_check_periodic returns,
next_wake_time, next_wake_time_counter and start_sec are the same after the
call as before; the return value is 0 or 1, and the caller-held ts is changed
only when the call returns 1. -/
theorem C15_check_periodic_frame (s : TimerState) (ts : timespec) :
    (timer_check_periodic s ts).state = s
    ∧ (timer_check_periodic s ts).state.next_wake_time = s.next_wake_time
    ∧ (timer_check_periodic s ts).state.next_wake_time_counter = s.next_wake_time_counter
    ∧ (timer_check_periodic s ts).state.start_sec = s.start_sec
    ∧ ((timer_check_periodic s ts).ret = 0 ∨ (timer_check_periodic s ts).ret = 1)
    ∧ ((timer_check_periodic s ts).ts ≠ ts → (timer_check_periodic s ts).ret = 1)
    ∧ ((timer_check_periodic s ts).ret = 0 → (timer_check_periodic s ts).ts = ts) := by
  cases hb : timespec_is_before s.next_wake_time ts <;> simp [timer_check_periodic, hb]

/-! ## C16: the two halves of the scheduled wake stay consistent -/

theorem kick_consistent (freq : Nat) (now : timespec) (s : TimerState)
    (hn : normalized now) :
    (timer_kick freq now s).next_wake_time_counter
        = timespec_to_time freq (timer_kick freq now s) (timer_kick freq now s).next_wake_time
    ∧ normalized (timer_kick freq now s).next_wake_time :=
  ⟨rfl, hn⟩

theorem one_second_of_ticks (freq : Nat) (d : Int) (hf : (freq : Int) ∣ NSECS)
    (h1 : -(freq : Int) < d) (h2 : d < (freq : Int)) :
    -NSECS ≤ d * NSECS_PER_TICK freq ∧ d * NSECS_PER_TICK freq ≤ NSECS := by
  obtain ⟨_, hk, hmul⟩ := tick_facts freq hf
  rw [← hmul]
  constructor
  · nlinarith
  · nlinarith

theorem dispatch_consistent (freq : Nat) (N : Nat) (s : TimerState)
    (hf : (freq : Int) ∣ NSECS)
    (hc : s.next_wake_time_counter = timespec_to_time freq s s.next_wake_time)
    (hn : normalized s.next_wake_time)
    (hok : step_ok freq s (Step.dispatch N)) :
    (timer_dispatch freq N s).next_wake_time_counter
        = timespec_to_time freq (timer_dispatch freq N s)
            (timer_dispatch freq N s).next_wake_time
    ∧ normalized (timer_dispatch freq N s).next_wake_time := by
  obtain ⟨hN, h1, h2⟩ := hok
  have hone := one_second_of_ticks freq _ hf h1 h2
  have hkeep := dispatch_keeps_consistent freq s N hf hn hc hN hone
  obtain ⟨_, hnr⟩ := within_one_second freq s N hn hone
  refine ⟨?_, hnr⟩
  show N = timespec_to_time freq s (timespec_from_time freq s N)
  exact hkeep.symm

theorem run_consistent (freq : Nat) (hf : (freq : Int) ∣ NSECS) (steps : List Step) :
    ∀ s : TimerState,
      s.next_wake_time_counter = timespec_to_time freq s s.next_wake_time →
      normalized s.next_wake_time →
      steps_ok freq s steps →
      (run freq s steps).next_wake_time_counter
          = timespec_to_time freq (run freq s steps) (run freq s steps).next_wake_time
      ∧ normalized (run freq s steps).next_wake_time := by
  induction steps with
  | nil => intro s hc hn _; exact ⟨hc, hn⟩
  | cons st rest ih =>
    intro s hc hn hok
    obtain ⟨h1, h2⟩ := hok
    cases st with
    | kick now =>
      obtain ⟨hc2, hn2⟩ := kick_consistent freq now s h1
      exact ih (timer_kick freq now s) hc2 hn2 h2
    | dispatch N =>
      obtain ⟨hc2, hn2⟩ := dispatch_consistent freq N s hf hc hn h1
      exact ih (timer_dispatch freq N s) hc2 hn2 h2

/-- C16: for a clock frequency that divides 1e9, in every state reached from
timer_init (whose timer_kick reads a normalized wall time) by any sequence of
timer_kick steps reading normalized wall times and timer_dispatch steps in
which each `uint32_t` tick returned by the multiplexer is less than one second
of ticks away from the previous next_wake_time_counter (signed difference),
next_wake_time_counter equals timespec_to_time(next_wake_time) and
next_wake_time has nanoseconds in [0, 1e9). -/
theorem C16_wake_halves_consistent (freq : Nat) (t0 t1 : timespec) (s0 : TimerState)
    (steps : List Step) (hf : (freq : Int) ∣ NSECS) (ht1 : normalized t1)
    (hok : steps_ok freq (timer_init freq t0 t1 s0) steps) :
    (run freq (timer_init freq t0 t1 s0) steps).next_wake_time_counter
        = timespec_to_time freq (run freq (timer_init freq t0 t1 s0) steps)
            (run freq (timer_init freq t0 t1 s0) steps).next_wake_time
    ∧ normalized (run freq (timer_init freq t0 t1 s0) steps).next_wake_time := by
  have hinit := kick_consistent freq t1 { s0 with start_sec := t0.tv_sec + 1 } ht1
  exact run_consistent freq hf steps (timer_init freq t0 t1 s0) hinit.1 hinit.2 hok

theorem C16_wake_halves_consistent_witness :
    (run 1000000
        (timer_init 1000000 { tv_sec := 100, tv_nsec := 0 } { tv_sec := 100, tv_nsec := 5 }
          { next_wake_time_counter := 0, next_wake_time := { tv_sec := 0, tv_nsec := 0 },
            start_sec := 0 })
        [Step.dispatch 4294267296, Step.dispatch 200000,
          Step.kick { tv_sec := 103, tv_nsec := 7 }, Step.dispatch 2000500]).next_wake_time_counter
      = timespec_to_time 1000000
          (run 1000000
            (timer_init 1000000 { tv_sec := 100, tv_nsec := 0 }
              { tv_sec := 100, tv_nsec := 5 }
              { next_wake_time_counter := 0, next_wake_time := { tv_sec := 0, tv_nsec := 0 },
                start_sec := 0 })
            [Step.dispatch 4294267296, Step.dispatch 200000,
              Step.kick { tv_sec := 103, tv_nsec := 7 }, Step.dispatch 2000500])
          (run 1000000
            (timer_init 1000000 { tv_sec := 100, tv_nsec := 0 }
              { tv_sec := 100, tv_nsec := 5 }
              { next_wake_time_counter := 0, next_wake_time := { tv_sec := 0, tv_nsec := 0 },
                start_sec := 0 })
            [Step.dispatch 4294267296, Step.dispatch 200000,
              Step.kick { tv_sec := 103, tv_nsec := 7 },
              Step.dispatch 2000500]).next_wake_time
    ∧ normalized (run 1000000
        (timer_init 1000000 { tv_sec := 100, tv_nsec := 0 } { tv_sec := 100, tv_nsec := 5 }
          { next_wake_time_counter := 0, next_wake_time := { tv_sec := 0, tv_nsec := 0 },
            start_sec := 0 })
        [Step.dispatch 4294267296, Step.dispatch 200000,
          Step.kick { tv_sec := 103, tv_nsec := 7 }, Step.dispatch 2000500]).next_wake_time :=
  C16_wake_halves_consistent 1000000 { tv_sec := 100, tv_nsec := 0 }
    { tv_sec := 100, tv_nsec := 5 }
    { next_wake_time_counter := 0, next_wake_time := { tv_sec := 0, tv_nsec := 0 },
      start_sec := 0 }
    [Step.dispatch 4294267296, Step.dispatch 200000,
      Step.kick { tv_sec := 103, tv_nsec := 7 }, Step.dispatch 2000500]
    (by decide) (by decide) (by decide)

/-! ## C17: timespec_from_time is exact in total nanoseconds -/

theorem from_time_sec_aux (a n p : Int) (r : timespec)
    (hr : r = (if to_ulong (n + p) ≥ NSECS then
          if n + p < 0 then
            ({ tv_sec := a - 1, tv_nsec := n + p + NSECS } : timespec)
          else
            { tv_sec := a + 1, tv_nsec := n + p - NSECS }
        else
          { tv_sec := a, tv_nsec := n + p })) :
    (r.tv_sec = a ∧ r.tv_nsec = n + p)
    ∨ (r.tv_sec = a + 1 ∧ r.tv_nsec = n + p - NSECS)
    ∨ (r.tv_sec = a - 1 ∧ r.tv_nsec = n + p + NSECS) := by
  subst hr
  split_ifs <;> simp

/-- C17: for every tick t and every scheduled wake, with diff the signed
32-bit value of t - next_wake_time_counter and diff * tick duration fitting a
32-bit `int`, the result r of timespec_from_time(t) satisfies
r.tv_sec * 1e9 + r.tv_nsec
  = next_wake_time.tv_sec * 1e9 + next_wake_time.tv_nsec + diff * tick duration;
r is the unnormalized sum itself, or that sum with one whole second moved from
the nanosecond field into the seconds field (carry) or back (borrow), so
r.tv_sec differs from next_wake_time.tv_sec by at most 1. -/
theorem C17_from_time_exact (freq : Nat) (s : TimerState) (t : Nat)
    (hov : -2147483648 ≤ counter_diff t s.next_wake_time_counter * NSECS_PER_TICK freq
      ∧ counter_diff t s.next_wake_time_counter * NSECS_PER_TICK freq < 2147483648) :
    (timespec_from_time freq s t).tv_sec * NSECS + (timespec_from_time freq s t).tv_nsec
        = s.next_wake_time.tv_sec * NSECS + s.next_wake_time.tv_nsec
          + counter_diff t s.next_wake_time_counter * NSECS_PER_TICK freq
    ∧ (((timespec_from_time freq s t).tv_sec = s.next_wake_time.tv_sec
          ∧ (timespec_from_time freq s t).tv_nsec
              = s.next_wake_time.tv_nsec
                + counter_diff t s.next_wake_time_counter * NSECS_PER_TICK freq)
        ∨ ((timespec_from_time freq s t).tv_sec = s.next_wake_time.tv_sec + 1
          ∧ (timespec_from_time freq s t).tv_nsec
              = s.next_wake_time.tv_nsec
                + counter_diff t s.next_wake_time_counter * NSECS_PER_TICK freq - NSECS)
        ∨ ((timespec_from_time freq s t).tv_sec = s.next_wake_time.tv_sec - 1
          ∧ (timespec_from_time freq s t).tv_nsec
              = s.next_wake_time.tv_nsec
                + counter_diff t s.next_wake_time_counter * NSECS_PER_TICK freq + NSECS))
    ∧ |(timespec_from_time freq s t).tv_sec - s.next_wake_time.tv_sec| ≤ 1 := by
  have hr : timespec_from_time freq s t
      = (if to_ulong (s.next_wake_time.tv_nsec
            + counter_diff t s.next_wake_time_counter * NSECS_PER_TICK freq) ≥ NSECS then
          if s.next_wake_time.tv_nsec
              + counter_diff t s.next_wake_time_counter * NSECS_PER_TICK freq < 0 then
            ({ tv_sec := s.next_wake_time.tv_sec - 1,
               tv_nsec := s.next_wake_time.tv_nsec
                + counter_diff t s.next_wake_time_counter * NSECS_PER_TICK freq + NSECS }
              : timespec)
          else
            { tv_sec := s.next_wake_time.tv_sec + 1,
              tv_nsec := s.next_wake_time.tv_nsec
                + counter_diff t s.next_wake_time_counter * NSECS_PER_TICK freq - NSECS }
        else
          { tv_sec := s.next_wake_time.tv_sec,
            tv_nsec := s.next_wake_time.tv_nsec
              + counter_diff t s.next_wake_time_counter * NSECS_PER_TICK freq }) := by
    simp only [timespec_from_time]; rw [to_int32_of_range _ hov.1 hov.2]
  have htotal := from_time_total_aux _ _ _ _ hr
  have hcases := from_time_sec_aux _ _ _ _ hr
  refine ⟨by linarith, hcases, ?_⟩
  rw [abs_le]
  rcases hcases with h | h | h <;> rw [h.1] <;> constructor <;> linarith

theorem C17_from_time_exact_witness :
    (timespec_from_time 1000000
        { next_wake_time_counter := 500, next_wake_time := { tv_sec := 101, tv_nsec := 500 },
          start_sec := 101 } 1500500).tv_sec * NSECS
      + (timespec_from_time 1000000
        { next_wake_time_counter := 500, next_wake_time := { tv_sec := 101, tv_nsec := 500 },
          start_sec := 101 } 1500500).tv_nsec
      = (101 : Int) * NSECS + 500 + counter_diff 1500500 500 * NSECS_PER_TICK 1000000 :=
  (C17_from_time_exact 1000000
    { next_wake_time_counter := 500, next_wake_time := { tv_sec := 101, tv_nsec := 500 },
      start_sec := 101 } 1500500 (by decide)).1

/-! ## C18: timespec_is_before is the strict order of real time -/

/-- C18: for all normalized wall times a, b, c, timespec_is_before(a, b) holds
exactly when a.tv_sec * 1e9 + a.tv_nsec < b.tv_sec * 1e9 + b.tv_nsec; it is
irreflexive and transitive, and for a != b exactly one of
timespec_is_before(a, b) and timespec_is_before(b, a) holds. -/
theorem C18_is_before_strict_total_order (a b c : timespec)
    (ha : normalized a) (hb : normalized b) (hc : normalized c) :
    (timespec_is_before a b = true
        ↔ a.tv_sec * NSECS + a.tv_nsec < b.tv_sec * NSECS + b.tv_nsec)
    ∧ timespec_is_before a a = false
    ∧ (timespec_is_before a b = true → timespec_is_before b c = true →
        timespec_is_before a c = true)
    ∧ (a ≠ b →
        (timespec_is_before a b = true ∧ timespec_is_before b a = false)
        ∨ (timespec_is_before a b = false ∧ timespec_is_before b a = true)) := by
  obtain ⟨a0, a1⟩ := ha
  obtain ⟨b0, b1⟩ := hb
  obtain ⟨c0, c1⟩ := hc
  unfold NSECS at a1 b1 c1 ⊢
  have hne : a ≠ b → (a.tv_sec ≠ b.tv_sec ∨ a.tv_nsec ≠ b.tv_nsec) := by
    intro h
    by_contra hcon
    apply h
    cases a; cases b
    simp only [not_or, not_not] at hcon
    simp only [timespec.mk.injEq]
    exact hcon
  refine ⟨?_, ?_, ?_, ?_⟩
  · rw [timespec_is_before_iff]; omega
  · rw [← Bool.not_eq_true, timespec_is_before_iff]; omega
  · rw [timespec_is_before_iff, timespec_is_before_iff, timespec_is_before_iff]; omega
  · intro h
    have h2 := hne h
    rw [← Bool.not_eq_true, ← Bool.not_eq_true, timespec_is_before_iff,
      timespec_is_before_iff]
    omega

theorem C18_is_before_strict_total_order_witness :
    timespec_is_before { tv_sec := 101, tv_nsec := 999999999 } { tv_sec := 102, tv_nsec := 0 }
        = true
      ↔ (101 : Int) * NSECS + 999999999 < 102 * NSECS + 0 :=
  (C18_is_before_strict_total_order { tv_sec := 101, tv_nsec := 999999999 }
    { tv_sec := 102, tv_nsec := 0 } { tv_sec := 102, tv_nsec := 5 }
    (by decide) (by decide) (by decide)).1

end LinuxTimer
